import Mathlib

/-!
Verification of the LearnToSolder2018 badge firmware core
(src/src/LearnToSolder2018.X/main.c) in a shallow embedding.

The C globals become fields of a `Sys` structure; each C function becomes a
Lean function `Sys → Sys` (or returns auxiliary data).  Machine integers are
modelled as `Nat` with explicit `% 2^w` at the points where the C code can
wrap (uint8 counters, uint16 delays, uint32 timestamps).
-/

namespace LTS2018

/-- The five debounce states of `ButtonState_t` in main.c. -/
inductive ButtonState where
  | idle
  | pressedTiming
  | pressed
  | releasedTiming
  | released
  deriving DecidableEq, Repr

/-- `TRISTable` from main.c: pin-direction mask per LED slot (index 0..7).
Out-of-range indices never occur in the program (LEDState stays in [0,8)). -/
def TRISTable : Nat → Nat
  | 0 => 0xFC
  | 1 => 0xFC
  | 2 => 0xCF
  | 3 => 0xCF
  | 4 => 0xDE
  | 5 => 0xDE
  | 6 => 0xED
  | 7 => 0xED
  | _ => 0

/-- `PORTTable` from main.c: pin-level mask per LED slot (index 0..7). -/
def PORTTable : Nat → Nat
  | 0 => 0x01
  | 1 => 0x02
  | 2 => 0x10
  | 3 => 0x20
  | 4 => 0x20
  | 5 => 0x01
  | 6 => 0x10
  | 7 => 0x02
  | _ => 0

/-- `TRISA_LEDS_ALL_OUTUPT` in main.c. -/
def TRISA_LEDS_ALL_OUTPUT : Nat := 0xCC
/-- `PORTA_LEDS_ALL_LOW` in main.c. -/
def PORTA_LEDS_ALL_LOW : Nat := 0x00

/-- `SLOW_DELAY` in main.c. -/
def SLOW_DELAY : Nat := 250
/-- `BUTTON_DEBOUNCE_MS` in main.c. -/
def BUTTON_DEBOUNCE_MS : Nat := 20
/-- `SHUTDOWN_DELAY_MS` in main.c. -/
def SHUTDOWN_DELAY_MS : Nat := 100
/-- `QUICK_PRESS_MS` in main.c. -/
def QUICK_PRESS_MS : Nat := 250
/-- `MAX_AWAKE_TIME_MS` in main.c: 5 minutes in ms. -/
def MAX_AWAKE_TIME_MS : Nat := 5 * 60 * 1000

/-- LED bit constants from main.c. -/
def LED_R_RED : Nat := 0x01
def LED_R_GREEN : Nat := 0x02
def LED_R_BLUE : Nat := 0x04
def LED_R_YELLOW : Nat := 0x08
def LED_L_YELLOW : Nat := 0x10
def LED_L_BLUE : Nat := 0x20
def LED_L_GREEN : Nat := 0x40
def LED_L_RED : Nat := 0x80

/-- Pattern array indices from main.c. -/
def PATTERN_RIGHT_FLASH : Fin 8 := 0
def PATTERN_LEFT_FLASH : Fin 8 := 1
def PATTERN_RIGHT_GAME : Fin 8 := 2

/-- The global mutable state of main.c: file-scope globals, the function-local
`static` variables of `RunRightFlash`/`RunLeftFlash`/`RunGame`/
`CheckForButtonPushes`, and the two hardware registers TRISA and PORTA. -/
structure Sys where
  /-- `LEDOns` (uint8): LED request bitmask, mainline to ISR interface. -/
  ledOns : Nat
  /-- `LEDState` (uint8): multiplex cursor, 0..7. -/
  ledState : Nat
  /-- `PatternDelay` (uint16 array of 8). -/
  patternDelay : Fin 8 → Nat
  /-- `PatternState` (uint8 array of 8). -/
  patternState : Fin 8 → Nat
  /-- `WakeTimer` (uint32). -/
  wakeTimer : Nat
  /-- `ShutdownDelayTimer` (uint8). -/
  shutdownDelayTimer : Nat
  /-- `LeftDebounceTimer` (uint8). -/
  leftDebounceTimer : Nat
  /-- `RightDebounceTimer` (uint8). -/
  rightDebounceTimer : Nat
  /-- `LeftButtonState`. -/
  leftButtonState : ButtonState
  /-- `RightButtonState`. -/
  rightButtonState : ButtonState
  /-- `LastRightButtonPressTime` (uint32). -/
  lastRightButtonPressTime : Nat
  /-- `LastLeftButtonPressTime` (uint32, declared but never read). -/
  lastLeftButtonPressTime : Nat
  /-- static `right_delay` in `RunRightFlash` (uint16). -/
  right_delay : Nat
  /-- static `left_delay` in `RunLeftFlash` (uint16). -/
  left_delay : Nat
  /-- static `num_leds_lit` in `RunGame` (uint8). -/
  num_leds_lit : Nat
  /-- static `last_button_press_time` in `RunGame` (uint32). -/
  last_button_press_time : Nat
  /-- static `next_decrement_time` in `RunGame` (uint32). -/
  next_decrement_time : Nat
  /-- static `LastLeftButtonState` in `CheckForButtonPushes`. -/
  lastLeftButtonState : Bool
  /-- static `LastRightButtonState` in `CheckForButtonPushes`. -/
  lastRightButtonState : Bool
  /-- static `LeftButtonQuickPressCount` in `CheckForButtonPushes` (uint8). -/
  leftButtonQuickPressCount : Nat
  /-- hardware register TRISA (pin-direction register). -/
  trisa : Nat
  /-- hardware register PORTA (pin-level register). -/
  porta : Nat
  deriving Repr

/-- The state at boot: C statics are zero-initialized, except the explicit
initializers `right_delay = SLOW_DELAY`, `left_delay = SLOW_DELAY`,
`num_leds_lit = 1`. -/
def boot : Sys where
  ledOns := 0
  ledState := 0
  patternDelay := fun _ => 0
  patternState := fun _ => 0
  wakeTimer := 0
  shutdownDelayTimer := 0
  leftDebounceTimer := 0
  rightDebounceTimer := 0
  leftButtonState := ButtonState.idle
  rightButtonState := ButtonState.idle
  lastRightButtonPressTime := 0
  lastLeftButtonPressTime := 0
  right_delay := SLOW_DELAY
  left_delay := SLOW_DELAY
  num_leds_lit := 1
  last_button_press_time := 0
  next_decrement_time := 0
  lastLeftButtonState := false
  lastRightButtonState := false
  leftButtonQuickPressCount := 0
  trisa := 0
  porta := 0

/-- `SetLEDOn` in main.c: `LEDOns = LEDOns | LED` (uint8). -/
def SetLEDOn (led : Nat) (s : Sys) : Sys :=
  { s with ledOns := (Nat.lor s.ledOns led) % 256 }

/-- `SetLEDOff` in main.c: `LEDOns = LEDOns & ~LED` (uint8); the uint8
complement of `led` is `led ^^^ 0xFF` for `led < 256`. -/
def SetLEDOff (led : Nat) (s : Sys) : Sys :=
  { s with ledOns := Nat.land s.ledOns (Nat.xor led 0xFF) }

/-- `SetAllLEDsOff` in main.c. -/
def SetAllLEDsOff (s : Sys) : Sys :=
  { s with ledOns := 0 }

/-- Register names for the write trace of the ISR. -/
inductive Reg where
  | tris
  | port
  deriving DecidableEq, Repr

/-- The sequence of writes to TRISA/PORTA performed by one invocation of
`TMR0_Callback` (main.c lines 226-238), in program order: first
`TRISA = TRISA_LEDS_ALL_OUTUPT; PORTA = PORTA_LEDS_ALL_LOW;`, then, when bit
`LEDState` of `LEDOns` is set (the code tests `(uint8_t)(1 << LEDState) &
LEDOns`), `TRISA = TRISTable[LEDState]; PORTA = PORTTable[LEDState];`. -/
def tickRegWrites (ledOns ledState : Nat) : List (Reg × Nat) :=
  [(Reg.tris, TRISA_LEDS_ALL_OUTPUT), (Reg.port, PORTA_LEDS_ALL_LOW)] ++
    (if Nat.land ((1 <<< ledState) % 256) ledOns ≠ 0 then
      [(Reg.tris, TRISTable ledState), (Reg.port, PORTTable ledState)]
    else [])

/-- The register stage of `TMR0_Callback` (main.c lines 226-238): the net
effect on TRISA/PORTA of the all-off baseline write followed by the
conditional table write (the write order itself is `tickRegWrites`). -/
def tickRegs (s : Sys) : Sys :=
  if Nat.land ((1 <<< s.ledState) % 256) s.ledOns ≠ 0 then
    { s with trisa := TRISTable s.ledState, porta := PORTTable s.ledState }
  else
    { s with trisa := TRISA_LEDS_ALL_OUTPUT, porta := PORTA_LEDS_ALL_LOW }

/-- The cursor / timer stage of `TMR0_Callback` (main.c lines 240-276):
`LEDState++` (uint8), and when it reaches 8 the 1ms epoch work: `WakeTimer++`
(uint32), decrement of every nonzero `PatternDelay[i]`, reset of the cursor
to 0, and decrement of each nonzero debounce timer and of a nonzero
`ShutdownDelayTimer`. -/
def tickEpoch (s : Sys) : Sys :=
  let s1 : Sys := { s with ledState := (s.ledState + 1) % 256 }
  if s1.ledState = 8 then
    { s1 with
      wakeTimer := (s1.wakeTimer + 1) % 2 ^ 32
      patternDelay := fun i =>
        if s1.patternDelay i ≠ 0 then s1.patternDelay i - 1
        else s1.patternDelay i
      ledState := 0
      leftDebounceTimer :=
        if s1.leftDebounceTimer ≠ 0 then s1.leftDebounceTimer - 1
        else s1.leftDebounceTimer
      rightDebounceTimer :=
        if s1.rightDebounceTimer ≠ 0 then s1.rightDebounceTimer - 1
        else s1.rightDebounceTimer
      shutdownDelayTimer :=
        if s1.shutdownDelayTimer ≠ 0 then s1.shutdownDelayTimer - 1
        else s1.shutdownDelayTimer }
  else s1

/-- `TMR0_Callback` in main.c (lines 221-277): the 125µs tick, i.e. the
register stage followed by the cursor/timer stage. -/
def TMR0_Callback (s : Sys) : Sys := tickEpoch (tickRegs s)

/-- Update one entry of `PatternState`. -/
def setPS (i : Fin 8) (v : Nat) (s : Sys) : Sys :=
  { s with patternState := fun j => if j = i then v else s.patternState j }

/-- Update one entry of `PatternDelay`. -/
def setPD (i : Fin 8) (v : Nat) (s : Sys) : Sys :=
  { s with patternDelay := fun j => if j = i then v else s.patternDelay j }

/-- `LeftButtonPressed` in main.c: debounced left-button query. -/
def LeftButtonPressed (s : Sys) : Bool := s.leftButtonState = ButtonState.pressed

/-- `RightButtonPressed` in main.c: debounced right-button query. -/
def RightButtonPressed (s : Sys) : Bool := s.rightButtonState = ButtonState.pressed

/-- The `switch(PatternState[PATTERN_RIGHT_FLASH])` body of `RunRightFlash`
(main.c lines 309-390), as a function of the state ordinal. -/
def rightFlashCase (st : Nat) (s : Sys) : Sys :=
  match st with
  | 0 => { s with right_delay := SLOW_DELAY }
  | 1 => (SetLEDOff LED_R_YELLOW (SetLEDOff LED_R_BLUE
      (SetLEDOff LED_R_GREEN (SetLEDOn LED_R_RED s))))
  | 2 => (SetLEDOff LED_R_YELLOW (SetLEDOff LED_R_BLUE
      (SetLEDOn LED_R_GREEN (SetLEDOff LED_R_RED s))))
  | 3 => (SetLEDOff LED_R_YELLOW (SetLEDOn LED_R_BLUE
      (SetLEDOff LED_R_GREEN (SetLEDOff LED_R_RED s))))
  | 4 => (SetLEDOn LED_R_YELLOW (SetLEDOff LED_R_BLUE
      (SetLEDOff LED_R_GREEN (SetLEDOff LED_R_RED s))))
  | 5 => (SetLEDOff LED_R_YELLOW (SetLEDOn LED_R_BLUE
      (SetLEDOff LED_R_GREEN (SetLEDOff LED_R_RED s))))
  | 6 => (SetLEDOff LED_R_YELLOW (SetLEDOff LED_R_BLUE
      (SetLEDOn LED_R_GREEN (SetLEDOff LED_R_RED s))))
  | 7 => (SetLEDOff LED_R_YELLOW (SetLEDOff LED_R_BLUE
      (SetLEDOff LED_R_GREEN (SetLEDOn LED_R_RED s))))
  | 8 => (SetLEDOn LED_R_YELLOW (SetLEDOn LED_R_BLUE
      (SetLEDOn LED_R_GREEN (SetLEDOn LED_R_RED s))))
  | 9 => (SetLEDOff LED_R_YELLOW (SetLEDOff LED_R_BLUE
      (SetLEDOff LED_R_GREEN (SetLEDOff LED_R_RED s))))
  | 10 => setPS PATTERN_RIGHT_FLASH 0 (SetLEDOff LED_R_YELLOW
      (SetLEDOff LED_R_BLUE (SetLEDOff LED_R_GREEN (SetLEDOff LED_R_RED s))))
  | _ => setPS PATTERN_RIGHT_FLASH 0 s

/-- `RunRightFlash` in main.c (lines 303-449).  The whole body is guarded by
`PatternDelay[PATTERN_RIGHT_FLASH] == 0`; after the case switch, the
state-advance block runs when the state is nonzero.  `right_delay * 80` and
`right_delay * 95` are uint16 arithmetic (mod 2^16), the state increment is
uint8. -/
def RunRightFlash (s : Sys) : Sys :=
  if s.patternDelay PATTERN_RIGHT_FLASH = 0 then
    let s := rightFlashCase (s.patternState PATTERN_RIGHT_FLASH) s
    if s.patternState PATTERN_RIGHT_FLASH ≠ 0 then
      let s :=
        if s.patternState PATTERN_RIGHT_FLASH = 7 then
          if RightButtonPressed s then
            if s.right_delay > 3 then
              setPS PATTERN_RIGHT_FLASH 2
                { s with right_delay := (s.right_delay * 80 % 2 ^ 16) / 100 }
            else
              setPS PATTERN_RIGHT_FLASH 8 { s with right_delay := SLOW_DELAY }
          else
            setPS PATTERN_RIGHT_FLASH 10 s
        else if s.patternState PATTERN_RIGHT_FLASH = 9 ∧ RightButtonPressed s then
          if s.right_delay > 10 then
            setPS PATTERN_RIGHT_FLASH 8
              { s with right_delay := (s.right_delay * 95 % 2 ^ 16) / 100 }
          else
            setPS PATTERN_RIGHT_FLASH 1 { s with right_delay := SLOW_DELAY }
        else
          setPS PATTERN_RIGHT_FLASH
            ((s.patternState PATTERN_RIGHT_FLASH + 1) % 256) s
      setPD PATTERN_RIGHT_FLASH s.right_delay s
    else s
  else s

/-- The `switch(PatternState[PATTERN_LEFT_FLASH])` body of `RunLeftFlash`
(main.c lines 457-538). -/
def leftFlashCase (st : Nat) (s : Sys) : Sys :=
  match st with
  | 0 => { s with left_delay := SLOW_DELAY }
  | 1 => (SetLEDOff LED_L_YELLOW (SetLEDOff LED_L_BLUE
      (SetLEDOff LED_L_GREEN (SetLEDOn LED_L_RED s))))
  | 2 => (SetLEDOff LED_L_YELLOW (SetLEDOff LED_L_BLUE
      (SetLEDOn LED_L_GREEN (SetLEDOff LED_L_RED s))))
  | 3 => (SetLEDOff LED_L_YELLOW (SetLEDOn LED_L_BLUE
      (SetLEDOff LED_L_GREEN (SetLEDOff LED_L_RED s))))
  | 4 => (SetLEDOn LED_L_YELLOW (SetLEDOff LED_L_BLUE
      (SetLEDOff LED_L_GREEN (SetLEDOff LED_L_RED s))))
  | 5 => (SetLEDOff LED_L_YELLOW (SetLEDOn LED_L_BLUE
      (SetLEDOff LED_L_GREEN (SetLEDOff LED_L_RED s))))
  | 6 => (SetLEDOff LED_L_YELLOW (SetLEDOff LED_L_BLUE
      (SetLEDOn LED_L_GREEN (SetLEDOff LED_L_RED s))))
  | 7 => (SetLEDOff LED_L_YELLOW (SetLEDOff LED_L_BLUE
      (SetLEDOff LED_L_GREEN (SetLEDOn LED_L_RED s))))
  | 8 => (SetLEDOn LED_L_YELLOW (SetLEDOn LED_L_BLUE
      (SetLEDOn LED_L_GREEN (SetLEDOn LED_L_RED s))))
  | 9 => (SetLEDOff LED_L_YELLOW (SetLEDOff LED_L_BLUE
      (SetLEDOff LED_L_GREEN (SetLEDOff LED_L_RED s))))
  | 10 => setPS PATTERN_LEFT_FLASH 0 (SetLEDOff LED_L_YELLOW
      (SetLEDOff LED_L_BLUE (SetLEDOff LED_L_GREEN (SetLEDOff LED_L_RED s))))
  | _ => setPS PATTERN_LEFT_FLASH 0 s

/-- `RunLeftFlash` in main.c (lines 451-583), mirror of `RunRightFlash`. -/
def RunLeftFlash (s : Sys) : Sys :=
  if s.patternDelay PATTERN_LEFT_FLASH = 0 then
    let s := leftFlashCase (s.patternState PATTERN_LEFT_FLASH) s
    if s.patternState PATTERN_LEFT_FLASH ≠ 0 then
      let s :=
        if s.patternState PATTERN_LEFT_FLASH = 7 then
          if LeftButtonPressed s then
            if s.left_delay > 3 then
              setPS PATTERN_LEFT_FLASH 2
                { s with left_delay := (s.left_delay * 80 % 2 ^ 16) / 100 }
            else
              setPS PATTERN_LEFT_FLASH 8 { s with left_delay := SLOW_DELAY }
          else
            setPS PATTERN_LEFT_FLASH 10 s
        else if s.patternState PATTERN_LEFT_FLASH = 9 ∧ LeftButtonPressed s then
          if s.left_delay > 10 then
            setPS PATTERN_LEFT_FLASH 8
              { s with left_delay := (s.left_delay * 95 % 2 ^ 16) / 100 }
          else
            setPS PATTERN_LEFT_FLASH 1 { s with left_delay := SLOW_DELAY }
        else
          setPS PATTERN_LEFT_FLASH
            ((s.patternState PATTERN_LEFT_FLASH + 1) % 256) s
      setPD PATTERN_LEFT_FLASH s.left_delay s
    else s
  else s

/-- The `switch(num_leds_lit)` rendering block of `RunGame` (main.c lines
595-691): draws a bar of 1..8 LEDs. -/
def gameRender (n : Nat) (s : Sys) : Sys :=
  match n with
  | 0 => s
  | 1 => (SetLEDOff LED_L_RED (SetLEDOff LED_L_GREEN (SetLEDOff LED_L_BLUE
      (SetLEDOff LED_L_YELLOW (SetLEDOff LED_R_YELLOW (SetLEDOff LED_R_BLUE
      (SetLEDOff LED_R_GREEN (SetLEDOn LED_R_RED s))))))))
  | 2 => (SetLEDOff LED_L_RED (SetLEDOff LED_L_GREEN (SetLEDOff LED_L_BLUE
      (SetLEDOff LED_L_YELLOW (SetLEDOff LED_R_YELLOW (SetLEDOff LED_R_BLUE
      (SetLEDOn LED_R_GREEN (SetLEDOn LED_R_RED s))))))))
  | 3 => (SetLEDOff LED_L_RED (SetLEDOff LED_L_GREEN (SetLEDOff LED_L_BLUE
      (SetLEDOff LED_L_YELLOW (SetLEDOff LED_R_YELLOW (SetLEDOn LED_R_BLUE
      (SetLEDOn LED_R_GREEN (SetLEDOn LED_R_RED s))))))))
  | 4 => (SetLEDOff LED_L_RED (SetLEDOff LED_L_GREEN (SetLEDOff LED_L_BLUE
      (SetLEDOff LED_L_YELLOW (SetLEDOn LED_R_YELLOW (SetLEDOn LED_R_BLUE
      (SetLEDOn LED_R_GREEN (SetLEDOn LED_R_RED s))))))))
  | 5 => (SetLEDOff LED_L_RED (SetLEDOff LED_L_GREEN (SetLEDOff LED_L_BLUE
      (SetLEDOn LED_L_YELLOW (SetLEDOn LED_R_YELLOW (SetLEDOn LED_R_BLUE
      (SetLEDOn LED_R_GREEN (SetLEDOn LED_R_RED s))))))))
  | 6 => (SetLEDOff LED_L_RED (SetLEDOff LED_L_GREEN (SetLEDOn LED_L_BLUE
      (SetLEDOn LED_L_YELLOW (SetLEDOn LED_R_YELLOW (SetLEDOn LED_R_BLUE
      (SetLEDOn LED_R_GREEN (SetLEDOn LED_R_RED s))))))))
  | 7 => (SetLEDOff LED_L_RED (SetLEDOn LED_L_GREEN (SetLEDOn LED_L_BLUE
      (SetLEDOn LED_L_YELLOW (SetLEDOn LED_R_YELLOW (SetLEDOn LED_R_BLUE
      (SetLEDOn LED_R_GREEN (SetLEDOn LED_R_RED s))))))))
  | 8 => (SetLEDOn LED_L_RED (SetLEDOn LED_L_GREEN (SetLEDOn LED_L_BLUE
      (SetLEDOn LED_L_YELLOW (SetLEDOn LED_R_YELLOW (SetLEDOn LED_R_BLUE
      (SetLEDOn LED_R_GREEN (SetLEDOn LED_R_RED s))))))))
  | _ => s

/-- `RunGame` in main.c (lines 585-740).  The win celebration (5 rapid
blinks with `__delay_ms(100)` pauses) nets out to `LEDOns = 0` since its
last write is `SetLEDOff(0xFF)`; the blocking delays have no further state
effect.  `num_leds_lit` is uint8, the timestamps uint32. -/
def RunGame (s : Sys) : Sys :=
  if s.patternDelay PATTERN_RIGHT_GAME = 0 then
    if s.patternState PATTERN_RIGHT_GAME ≠ 0 then
      let s := gameRender s.num_leds_lit s
      let s :=
        if s.last_button_press_time ≠ s.lastRightButtonPressTime then
          let s :=
            if s.lastRightButtonPressTime <
                (s.last_button_press_time + 150) % 2 ^ 32 then
              let s := { s with num_leds_lit := (s.num_leds_lit + 1) % 256 }
              if s.num_leds_lit > 8 then
                SetLEDOff 0xFF (SetLEDOn 0xFF (SetLEDOff 0xFF (SetLEDOn 0xFF
                  (SetLEDOff 0xFF (SetLEDOn 0xFF (SetLEDOff 0xFF (SetLEDOn 0xFF
                  (SetLEDOff 0xFF (SetLEDOn 0xFF
                    { s with num_leds_lit := 0 })))))))))
              else s
            else s
          { s with last_button_press_time := s.lastRightButtonPressTime }
        else s
      if s.wakeTimer > s.next_decrement_time then
        { s with
          next_decrement_time := (s.wakeTimer + 160) % 2 ^ 32
          num_leds_lit :=
            if s.num_leds_lit ≠ 0 then s.num_leds_lit - 1 else s.num_leds_lit }
      else s
    else s
  else s

/-- One debounce pass for one button (main.c lines 750-779 for the left
button, 782-811 for the right): takes the raw level, the current
`ButtonState_t` and the current debounce timer, returns the new state and
timer. -/
def debounceStep (raw : Bool) (st : ButtonState) (timer : Nat) :
    ButtonState × Nat :=
  if raw then
    if st = ButtonState.pressedTiming then
      if timer = 0 then (ButtonState.pressed, timer) else (st, timer)
    else if st ≠ ButtonState.pressed then
      (ButtonState.pressedTiming, BUTTON_DEBOUNCE_MS)
    else (st, timer)
  else
    if st = ButtonState.releasedTiming then
      if timer = 0 then (ButtonState.released, timer) else (st, timer)
    else if st ≠ ButtonState.released then
      (ButtonState.releasedTiming, BUTTON_DEBOUNCE_MS)
    else (st, timer)

/-- The debounce phase of `CheckForButtonPushes` (main.c lines 749-811):
both buttons are debounced from their raw levels. -/
def debouncePhase (rawL rawR : Bool) (s : Sys) : Sys :=
  let lp := debounceStep rawL s.leftButtonState s.leftDebounceTimer
  let s := { s with leftButtonState := lp.1, leftDebounceTimer := lp.2 }
  let rp := debounceStep rawR s.rightButtonState s.rightDebounceTimer
  { s with rightButtonState := rp.1, rightDebounceTimer := rp.2 }

/-- The left-press block of `CheckForButtonPushes` (main.c lines 813-824):
a new confirmed left press starts the left flash pattern. -/
def leftPressBlock (s : Sys) : Sys :=
  if LeftButtonPressed s then
    let s1 :=
      if s.lastLeftButtonState = false then setPS PATTERN_LEFT_FLASH 1 s else s
    { s1 with lastLeftButtonState := true }
  else { s with lastLeftButtonState := false }

/-- The body run on a new confirmed right press (main.c lines 829-864):
start the right flash pattern, run the quick-press gesture detection when
the left button is simultaneously confirmed pressed, and record the press
timestamp.  `LeftButtonQuickPressCount` is uint8; the timestamp sum is
uint32. -/
def rightGesture (s : Sys) : Sys :=
  let s := setPS PATTERN_RIGHT_FLASH 1 s
  let s :=
    if LeftButtonPressed s then
      if s.wakeTimer <
          (s.lastRightButtonPressTime + QUICK_PRESS_MS) % 2 ^ 32 then
        let s1 : Sys := { s with
          leftButtonQuickPressCount := (s.leftButtonQuickPressCount + 1) % 256 }
        if s1.leftButtonQuickPressCount = 4 then
          setPS PATTERN_RIGHT_GAME 1
            (setPS PATTERN_LEFT_FLASH 0 (setPS PATTERN_RIGHT_FLASH 0 s1))
        else s1
      else { s with leftButtonQuickPressCount := 0 }
    else s
  { s with lastRightButtonPressTime := s.wakeTimer }

/-- The right-press block of `CheckForButtonPushes` (main.c lines 826-871). -/
def rightPressBlock (s : Sys) : Sys :=
  if RightButtonPressed s then
    let s1 := if s.lastRightButtonState = false then rightGesture s else s
    { s1 with lastRightButtonState := true }
  else { s with lastRightButtonState := false }

/-- `CheckForButtonPushes` in main.c (lines 743-874): debounce both buttons,
run the left-press and right-press blocks, and return
`LeftButtonPressedRaw() || RightButtonPressedRaw()`. -/
def CheckForButtonPushes (rawL rawR : Bool) (s : Sys) : Sys × Bool :=
  (rightPressBlock (leftPressBlock (debouncePhase rawL rawR s)), rawL || rawR)

/-- The `APatternIsRunning` scan of main (lines 910-917): true when some
entry of `PatternState` is nonzero. -/
def APatternIsRunning (s : Sys) : Bool :=
  decide (∃ i : Fin 8, s.patternState i ≠ 0)

/-- The shutdown-entry guard of main (line 918):
`(!APatternIsRunning && RightDebounceTimer == 0 && LeftDebounceTimer == 0)
|| (WakeTimer > MAX_AWAKE_TIME_MS)`. -/
def shutdownGuard (s : Sys) : Bool :=
  (!APatternIsRunning s && decide (s.rightDebounceTimer = 0) &&
    decide (s.leftDebounceTimer = 0)) ||
  decide (s.wakeTimer > MAX_AWAKE_TIME_MS)

/-- The spin-wait `while (ShutdownDelayTimer && !CheckForButtonPushes())`
followed by `if (ShutdownDelayTimer == 0) ... SLEEP()` (main.c lines
926-939).  The interrupt decrements `ShutdownDelayTimer` asynchronously, so
each loop iteration is driven by an observation pair: the timer value read
by the while-condition and the Boolean returned by `CheckForButtonPushes`
(which, by C short-circuiting, is not called when the timer reads 0).
`some true` means the loop exited with the timer at 0 and `SLEEP()` is
reached; `some false` means button activity was seen with the timer still
nonzero and sleep is skipped; `none` means the observation trace ended with
the loop still spinning. -/
def shutdownSpin : List (Nat × Bool) → Option Bool
  | [] => none
  | (t, b) :: rest =>
    if t = 0 then some true else if b then some false else shutdownSpin rest

/-- The statement `WakeTimer = 0;` executed right after `SLEEP()` returns
(main.c line 938): the only state change the sleep/wake boundary itself
performs. -/
def wakeFromSleep (s : Sys) : Sys := { s with wakeTimer := 0 }

/-- Concrete state used to instantiate the tick theorems: cursor at 7 (so the
next tick wraps), a nonzero and a zero pattern delay, nonzero debounce and
shutdown timers. -/
def tickSample : Sys :=
  { boot with
    ledState := 7
    ledOns := 0x81
    patternDelay := fun i => if i = 0 then 5 else 0
    leftDebounceTimer := 3
    rightDebounceTimer := 0
    shutdownDelayTimer := 1
    wakeTimer := 41 }

/-- One effective pass of the right flash pattern: the tick interrupt
decrements `PatternDelay[PATTERN_RIGHT_FLASH]` to 0 (claim C2), after which
the next `RunRightFlash` call in the main loop takes its active branch.  The
intermediate `RunRightFlash` calls while the delay is nonzero take the
`PatternDelay != 0` early exit and change nothing. -/
def flashPassStep (s : Sys) : Sys :=
  RunRightFlash (setPD PATTERN_RIGHT_FLASH 0 s)

/-- Boot-like state in which the right button has been held with its
debounce countdown expired, so the next `CheckForButtonPushes` pass commits
the press. -/
def c6Start : Sys :=
  { boot with rightButtonState := ButtonState.pressedTiming }

/-- State after the press is confirmed (one `CheckForButtonPushes` with the
right raw level pressed) and then immediately released (one
`CheckForButtonPushes` with both raw levels released). -/
def c6Released : Sys :=
  (CheckForButtonPushes false false
    ((CheckForButtonPushes false true c6Start).1)).1

/-- Session-1 state for the cross-sleep scenario: the right button held with
its debounce countdown expired, 1000ms after wake. -/
def c7Start : Sys :=
  { boot with rightButtonState := ButtonState.pressedTiming, wakeTimer := 1000 }

/-- Session 1: the right press is confirmed at wake-clock 1000 (recording
`LastRightButtonPressTime = 1000`), then released. -/
def c7Released : Sys :=
  (CheckForButtonPushes false false
    ((CheckForButtonPushes false true c7Start).1)).1

/-- The sleep boundary: `SLEEP()` returns and `WakeTimer = 0;` runs (main.c
line 938).  No other state is reset. -/
def c7AfterWake : Sys := wakeFromSleep c7Released

/-- Session 2, with both buttons held since shortly after wake: 71ms of
1ms epochs have elapsed (so the wake clock reads 71 and both 20ms debounce
countdowns, restarted when the raw press was first observed, have expired —
exactly the evolution proved in claims C2 and C4), leaving both buttons in
`PressedTiming` with timer 0, one `CheckForButtonPushes` pass away from
committing.  All other fields are as `c7AfterWake` left them; in particular
the stale `LastRightButtonPressTime` = 1000 from session 1. -/
def c7Session2 : Sys :=
  { c7AfterWake with
    wakeTimer := 71
    leftButtonState := ButtonState.pressedTiming
    rightButtonState := ButtonState.pressedTiming
    leftDebounceTimer := 0
    rightDebounceTimer := 0 }

/-- Session 2 final state: the pass that commits the new right press and
runs the quick-press gesture comparison. -/
def c7Final : Sys := (CheckForButtonPushes true true c7Session2).1

/-- Concrete state for the C8 counterexample: quick-press counter at 2, a
new confirmed right press arriving 300ms (> 250ms) after the previous
right-press timestamp, with the left button NOT pressed. -/
def c8NoLeft : Sys :=
  { boot with
    rightButtonState := ButtonState.pressed
    wakeTimer := 1300
    lastRightButtonPressTime := 1000
    leftButtonQuickPressCount := 2 }

/-- Concrete state for the C8 witness: left button confirmed pressed, a new
confirmed right press 100ms (< 250ms) after the previous one, counter 1. -/
def c8Quick : Sys :=
  { boot with
    rightButtonState := ButtonState.pressed
    leftButtonState := ButtonState.pressed
    lastLeftButtonState := true
    wakeTimer := 1100
    lastRightButtonPressTime := 1000
    leftButtonQuickPressCount := 1 }

/-- The bit test `(uint8_t)(1 << LEDState) & LEDOns` of main.c line 233
agrees with `Nat.testBit` for cursor values below 8. -/
theorem land_shift_eq_testBit (ledOns ledState : Nat) (h : ledState < 8) :
    (Nat.land ((1 <<< ledState) % 256) ledOns ≠ 0) ↔ ledOns.testBit ledState := by
  have hlt : 2 ^ ledState < 256 := by
    calc 2 ^ ledState < 2 ^ 8 := Nat.pow_lt_pow_right one_lt_two h
    _ = 256 := by norm_num
  have hmod : (1 <<< ledState) % 256 = 2 ^ ledState := by
    rw [Nat.one_shiftLeft]
    exact Nat.mod_eq_of_lt hlt
  rw [hmod]
  have hand : Nat.land (2 ^ ledState) ledOns =
      2 ^ ledState * (ledOns.testBit ledState).toNat := Nat.two_pow_and ledOns ledState
  rw [hand]
  have hne : 2 ^ ledState ≠ 0 := Nat.pos_iff_ne_zero.mp (Nat.pos_pow_of_pos ledState two_pos)
  cases hb : ledOns.testBit ledState <;> simp [hne]

/-- The register stage written as a single record update. -/
theorem tickRegs_eq (s : Sys) :
    tickRegs s =
      { s with
        trisa :=
          if Nat.land ((1 <<< s.ledState) % 256) s.ledOns ≠ 0 then
            TRISTable s.ledState
          else TRISA_LEDS_ALL_OUTPUT
        porta :=
          if Nat.land ((1 <<< s.ledState) % 256) s.ledOns ≠ 0 then
            PORTTable s.ledState
          else PORTA_LEDS_ALL_LOW } := by
  unfold tickRegs
  split <;> rename_i hcond <;> simp [hcond]

/-- The register stage leaves every non-register field unchanged. -/
theorem tickRegs_fields (s : Sys) :
    (tickRegs s).ledOns = s.ledOns ∧ (tickRegs s).ledState = s.ledState ∧
    (tickRegs s).patternDelay = s.patternDelay ∧
    (tickRegs s).patternState = s.patternState ∧
    (tickRegs s).wakeTimer = s.wakeTimer ∧
    (tickRegs s).shutdownDelayTimer = s.shutdownDelayTimer ∧
    (tickRegs s).leftDebounceTimer = s.leftDebounceTimer ∧
    (tickRegs s).rightDebounceTimer = s.rightDebounceTimer := by
  rw [tickRegs_eq]
  exact ⟨rfl, rfl, rfl, rfl, rfl, rfl, rfl, rfl⟩

/-- The cursor/timer stage leaves the registers and the LED bitmask
unchanged. -/
theorem tickEpoch_frame (s : Sys) :
    (tickEpoch s).trisa = s.trisa ∧ (tickEpoch s).porta = s.porta ∧
    (tickEpoch s).ledOns = s.ledOns := by
  refine ⟨?_, ?_, ?_⟩ <;> (unfold tickEpoch; dsimp only; split <;> rfl)

/-- Behaviour of the cursor/timer stage for a cursor in range: the cursor
advances (wrapping from 7 to 0), the 1ms epoch work runs exactly on
wraparound, and on non-wraparound ticks every counter is unchanged. -/
theorem tickEpoch_spec (s : Sys) (h8 : s.ledState < 8)
    (hw : s.wakeTimer + 1 < 2 ^ 32) :
    ((tickEpoch s).ledState = if s.ledState = 7 then 0 else s.ledState + 1) ∧
    (s.ledState = 7 →
      (tickEpoch s).wakeTimer = s.wakeTimer + 1 ∧
      (∀ i : Fin 8, (tickEpoch s).patternDelay i =
        if s.patternDelay i ≠ 0 then s.patternDelay i - 1
        else s.patternDelay i) ∧
      ((tickEpoch s).leftDebounceTimer =
        if s.leftDebounceTimer ≠ 0 then s.leftDebounceTimer - 1
        else s.leftDebounceTimer) ∧
      ((tickEpoch s).rightDebounceTimer =
        if s.rightDebounceTimer ≠ 0 then s.rightDebounceTimer - 1
        else s.rightDebounceTimer) ∧
      ((tickEpoch s).shutdownDelayTimer =
        if s.shutdownDelayTimer ≠ 0 then s.shutdownDelayTimer - 1
        else s.shutdownDelayTimer)) ∧
    (s.ledState ≠ 7 →
      (tickEpoch s).wakeTimer = s.wakeTimer ∧
      (∀ i : Fin 8, (tickEpoch s).patternDelay i = s.patternDelay i) ∧
      (tickEpoch s).leftDebounceTimer = s.leftDebounceTimer ∧
      (tickEpoch s).rightDebounceTimer = s.rightDebounceTimer ∧
      (tickEpoch s).shutdownDelayTimer = s.shutdownDelayTimer) := by
  unfold tickEpoch
  by_cases h7 : s.ledState = 7
  · have h18 : (s.ledState + 1) % 256 = 8 := by rw [h7]
    simp [h18, h7, Nat.mod_eq_of_lt hw]
    all_goals omega
  · have hlt : s.ledState + 1 < 256 := by omega
    have h18 : ¬ (s.ledState + 1) % 256 = 8 := by
      rw [Nat.mod_eq_of_lt hlt]
      omega
    simp [h18, h7, Nat.mod_eq_of_lt hlt]

/-- Claim C1: on every tick the Charlieplex driver first writes the all-off
configuration (TRISA = 0xCC then PORTA = 0x00) and then, exactly when bit
`LEDState` of the LED bitmask is set, overwrites the direction register with
`TRISTable[LEDState]` and the level register with `PORTTable[LEDState]`,
writing direction before level; when the bit is clear the registers keep the
all-off values for that tick. -/
theorem claim_C1 (s : Sys) (h : s.ledState < 8) :
    (tickRegWrites s.ledOns s.ledState =
      if s.ledOns.testBit s.ledState then
        [(Reg.tris, TRISA_LEDS_ALL_OUTPUT), (Reg.port, PORTA_LEDS_ALL_LOW),
         (Reg.tris, TRISTable s.ledState), (Reg.port, PORTTable s.ledState)]
      else
        [(Reg.tris, TRISA_LEDS_ALL_OUTPUT), (Reg.port, PORTA_LEDS_ALL_LOW)]) ∧
    (TMR0_Callback s).trisa =
      (if s.ledOns.testBit s.ledState then TRISTable s.ledState
       else TRISA_LEDS_ALL_OUTPUT) ∧
    (TMR0_Callback s).porta =
      (if s.ledOns.testBit s.ledState then PORTTable s.ledState
       else PORTA_LEDS_ALL_LOW) := by
  refine ⟨?_, ?_, ?_⟩
  · by_cases hb : s.ledOns.testBit s.ledState
    · have hc : Nat.land ((1 <<< s.ledState) % 256) s.ledOns ≠ 0 :=
        (land_shift_eq_testBit s.ledOns s.ledState h).mpr hb
      simp [tickRegWrites, hc, hb]
    · have hc : ¬ Nat.land ((1 <<< s.ledState) % 256) s.ledOns ≠ 0 := by
        intro hcc
        exact hb ((land_shift_eq_testBit s.ledOns s.ledState h).mp hcc)
      simp [tickRegWrites, hc, hb]
  · show (tickEpoch (tickRegs s)).trisa = _
    rw [(tickEpoch_frame (tickRegs s)).1, tickRegs_eq]
    simp [land_shift_eq_testBit s.ledOns s.ledState h]
  · show (tickEpoch (tickRegs s)).porta = _
    rw [(tickEpoch_frame (tickRegs s)).2.1, tickRegs_eq]
    simp [land_shift_eq_testBit s.ledOns s.ledState h]

/-- Witness for claim C1 at `tickSample` (cursor 7, bit 7 set): the write
trace is all-off first, then direction 0xED, then level 0x02. -/
theorem claim_C1_witness :
    tickRegWrites tickSample.ledOns tickSample.ledState =
      [(Reg.tris, 0xCC), (Reg.port, 0x00), (Reg.tris, 0xED), (Reg.port, 0x02)] := by
  have h := (claim_C1 tickSample (by decide)).1
  rw [h]
  decide

/-- Claim C2: every tick advances the multiplex cursor, and exactly on
wraparound from 7 to 0 the 1ms epoch work runs: `WakeTimer` gains one, each
nonzero `PatternDelay[i]` and each nonzero debounce/shutdown timer loses one
(zero entries stay zero, so nothing underflows), and on non-wraparound ticks
all of those counters are unchanged. -/
theorem claim_C2 (s : Sys) (h8 : s.ledState < 8)
    (hw : s.wakeTimer + 1 < 2 ^ 32) :
    ((TMR0_Callback s).ledState = if s.ledState = 7 then 0 else s.ledState + 1) ∧
    (s.ledState = 7 →
      (TMR0_Callback s).wakeTimer = s.wakeTimer + 1 ∧
      (∀ i : Fin 8, (TMR0_Callback s).patternDelay i =
        if s.patternDelay i ≠ 0 then s.patternDelay i - 1
        else s.patternDelay i) ∧
      ((TMR0_Callback s).leftDebounceTimer =
        if s.leftDebounceTimer ≠ 0 then s.leftDebounceTimer - 1
        else s.leftDebounceTimer) ∧
      ((TMR0_Callback s).rightDebounceTimer =
        if s.rightDebounceTimer ≠ 0 then s.rightDebounceTimer - 1
        else s.rightDebounceTimer) ∧
      ((TMR0_Callback s).shutdownDelayTimer =
        if s.shutdownDelayTimer ≠ 0 then s.shutdownDelayTimer - 1
        else s.shutdownDelayTimer)) ∧
    (s.ledState ≠ 7 →
      (TMR0_Callback s).wakeTimer = s.wakeTimer ∧
      (∀ i : Fin 8, (TMR0_Callback s).patternDelay i = s.patternDelay i) ∧
      (TMR0_Callback s).leftDebounceTimer = s.leftDebounceTimer ∧
      (TMR0_Callback s).rightDebounceTimer = s.rightDebounceTimer ∧
      (TMR0_Callback s).shutdownDelayTimer = s.shutdownDelayTimer) := by
  obtain ⟨-, hls, hpd, -, hwt, hsd, hld, hrd⟩ := tickRegs_fields s
  have hspec := tickEpoch_spec (tickRegs s)
    (by rw [hls]; exact h8) (by rw [hwt]; exact hw)
  rw [hls, hpd, hwt, hsd, hld, hrd] at hspec
  exact hspec

/-- Witness for claim C2 at `tickSample` (cursor 7): the tick wraps the
cursor to 0. -/
theorem claim_C2_witness : (TMR0_Callback tickSample).ledState = 0 := by
  have h := (claim_C2 tickSample (by decide) (by decide)).1
  rw [h]
  decide

/-- Claim C9: the tick handler reads the LED bitmask but never writes it:
`LEDOns` is unchanged by every invocation of `TMR0_Callback`. -/
theorem claim_C9 (s : Sys) : (TMR0_Callback s).ledOns = s.ledOns := by
  show (tickEpoch (tickRegs s)).ledOns = s.ledOns
  rw [(tickEpoch_frame (tickRegs s)).2.2]
  exact (tickRegs_fields s).1

/-- Counterexample to claim C4 as stated: in state `PressedTiming` with a
running countdown (timer 5) — a state that is "not already Pressed" — a raw
pressed level does NOT restart the 20ms countdown: the code leaves the
timer at 5 (main.c line 752-758 only checks for commit, the restart branch
at 759-763 is skipped). -/
theorem claim_C4_counterexample :
    debounceStep true ButtonState.pressedTiming 5 =
      (ButtonState.pressedTiming, 5) ∧
    debounceStep true ButtonState.pressedTiming 5 ≠
      (ButtonState.pressedTiming, BUTTON_DEBOUNCE_MS) := by
  decide

/-- Claim C4, amended: per main-loop debounce pass, a raw-pressed level in a
state that is neither `Pressed` nor `PressedTiming` moves to `PressedTiming`
and starts the 20ms countdown; in `PressedTiming` the countdown is not
restarted — the button commits to `Pressed` when the countdown has reached
zero and is left unchanged otherwise; in `Pressed` nothing changes.  The
symmetric rule holds for release. -/
theorem claim_C4 (raw : Bool) (st : ButtonState) (timer : Nat) :
    (raw = true → st ≠ ButtonState.pressed → st ≠ ButtonState.pressedTiming →
      debounceStep raw st timer = (ButtonState.pressedTiming, BUTTON_DEBOUNCE_MS)) ∧
    (raw = true → st = ButtonState.pressedTiming → timer = 0 →
      debounceStep raw st timer = (ButtonState.pressed, 0)) ∧
    (raw = true → st = ButtonState.pressedTiming → timer ≠ 0 →
      debounceStep raw st timer = (ButtonState.pressedTiming, timer)) ∧
    (raw = true → st = ButtonState.pressed →
      debounceStep raw st timer = (ButtonState.pressed, timer)) ∧
    (raw = false → st ≠ ButtonState.released → st ≠ ButtonState.releasedTiming →
      debounceStep raw st timer = (ButtonState.releasedTiming, BUTTON_DEBOUNCE_MS)) ∧
    (raw = false → st = ButtonState.releasedTiming → timer = 0 →
      debounceStep raw st timer = (ButtonState.released, 0)) ∧
    (raw = false → st = ButtonState.releasedTiming → timer ≠ 0 →
      debounceStep raw st timer = (ButtonState.releasedTiming, timer)) ∧
    (raw = false → st = ButtonState.released →
      debounceStep raw st timer = (ButtonState.released, timer)) := by
  cases raw <;> cases st <;> by_cases ht : timer = 0 <;>
    simp [debounceStep, ht]

/-- Witness for the amended claim C4: a raw press observed in the `Idle`
state with timer 7 moves to `PressedTiming` with a fresh 20ms countdown. -/
theorem claim_C4_witness :
    debounceStep true ButtonState.idle 7 =
      (ButtonState.pressedTiming, BUTTON_DEBOUNCE_MS) :=
  (claim_C4 true ButtonState.idle 7).1 rfl (by decide) (by decide)

/-- Claim C5: in each flash pattern (right and left), reaching state 7 with
that side's button still confirmed pressed and delay > 3 replaces the delay
by (delay*80)/100 and restarts the state at 2; each such pass strictly
decreases the delay while keeping it at least 3; and once the delay is ≤ 3,
state 7 with the button held moves to the shimmer state 8 with the delay
reset to `SLOW_DELAY` = 250. -/
theorem claim_C5 (s : Sys) :
    (s.patternDelay PATTERN_RIGHT_FLASH = 0 →
     s.patternState PATTERN_RIGHT_FLASH = 7 →
     s.rightButtonState = ButtonState.pressed →
      (3 < s.right_delay → s.right_delay ≤ 250 →
        (RunRightFlash s).right_delay = s.right_delay * 80 / 100 ∧
        (RunRightFlash s).patternState PATTERN_RIGHT_FLASH = 2 ∧
        (RunRightFlash s).patternDelay PATTERN_RIGHT_FLASH =
          s.right_delay * 80 / 100 ∧
        (RunRightFlash s).right_delay < s.right_delay ∧
        3 ≤ (RunRightFlash s).right_delay) ∧
      (s.right_delay ≤ 3 →
        (RunRightFlash s).patternState PATTERN_RIGHT_FLASH = 8 ∧
        (RunRightFlash s).right_delay = SLOW_DELAY)) ∧
    (s.patternDelay PATTERN_LEFT_FLASH = 0 →
     s.patternState PATTERN_LEFT_FLASH = 7 →
     s.leftButtonState = ButtonState.pressed →
      (3 < s.left_delay → s.left_delay ≤ 250 →
        (RunLeftFlash s).left_delay = s.left_delay * 80 / 100 ∧
        (RunLeftFlash s).patternState PATTERN_LEFT_FLASH = 2 ∧
        (RunLeftFlash s).patternDelay PATTERN_LEFT_FLASH =
          s.left_delay * 80 / 100 ∧
        (RunLeftFlash s).left_delay < s.left_delay ∧
        3 ≤ (RunLeftFlash s).left_delay) ∧
      (s.left_delay ≤ 3 →
        (RunLeftFlash s).patternState PATTERN_LEFT_FLASH = 8 ∧
        (RunLeftFlash s).left_delay = SLOW_DELAY)) := by
  constructor
  · intro hd h7 hb
    constructor
    · intro h3 h250
      have hmod : s.right_delay * 80 % 2 ^ 16 = s.right_delay * 80 :=
        Nat.mod_eq_of_lt (by omega)
      simp [RunRightFlash, rightFlashCase, SetLEDOn, SetLEDOff, setPS, setPD,
        RightButtonPressed, hd, h7, hb, hmod, h3]
      omega
    · intro h3
      have h3n : ¬ 3 < s.right_delay := by omega
      simp [RunRightFlash, rightFlashCase, SetLEDOn, SetLEDOff, setPS, setPD,
        RightButtonPressed, hd, h7, hb, h3n]
  · intro hd h7 hb
    constructor
    · intro h3 h250
      have hmod : s.left_delay * 80 % 2 ^ 16 = s.left_delay * 80 :=
        Nat.mod_eq_of_lt (by omega)
      simp [RunLeftFlash, leftFlashCase, SetLEDOn, SetLEDOff, setPS, setPD,
        LeftButtonPressed, hd, h7, hb, hmod, h3]
      omega
    · intro h3
      have h3n : ¬ 3 < s.left_delay := by omega
      simp [RunLeftFlash, leftFlashCase, SetLEDOn, SetLEDOff, setPS, setPD,
        LeftButtonPressed, hd, h7, hb, h3n]

/-- Witness for claim C5 at concrete states, one per side: state 7, delay
250, button held gives delay 200 (and state 2) on the right flash and on
the left flash alike. -/
theorem claim_C5_witness :
    (RunRightFlash
      { boot with
        patternState := fun i => if i = 0 then 7 else 0
        rightButtonState := ButtonState.pressed }).right_delay = 200 ∧
    (RunLeftFlash
      { boot with
        patternState := fun i => if i = 1 then 7 else 0
        leftButtonState := ButtonState.pressed }).left_delay = 200 := by
  constructor
  · have h := (((claim_C5
      { boot with
        patternState := fun i => if i = 0 then 7 else 0
        rightButtonState := ButtonState.pressed }).1
      (by decide) (by decide) (by decide)).1 (by decide) (by decide)).1
    rw [h]
    decide
  · have h := (((claim_C5
      { boot with
        patternState := fun i => if i = 1 then 7 else 0
        leftButtonState := ButtonState.pressed }).2
      (by decide) (by decide) (by decide)).1 (by decide) (by decide)).1
    rw [h]
    decide

/-- Claim C6: from inactive, a confirmed right press arms state 1, and with
the button immediately released the effective passes traverse
1→2→3→4→5→6→7→10→0; afterwards all four right-side LED bits are clear and
the pattern is inactive again. -/
theorem claim_C6 :
    (CheckForButtonPushes false true c6Start).1.patternState
      PATTERN_RIGHT_FLASH = 1 ∧
    (List.range 9).map
      (fun n => (flashPassStep^[n] c6Released).patternState
        PATTERN_RIGHT_FLASH) = [1, 2, 3, 4, 5, 6, 7, 10, 0] ∧
    Nat.land (flashPassStep^[8] c6Released).ledOns
      (Nat.lor (Nat.lor LED_R_RED LED_R_GREEN)
        (Nat.lor LED_R_BLUE LED_R_YELLOW)) = 0 ∧
    (flashPassStep^[8] c6Released).patternState PATTERN_RIGHT_FLASH = 0 := by
  decide

/-- The spin-wait commits to sleep exactly when the trace reaches a zero
timer reading before any button activity. -/
theorem shutdownSpin_true_iff (tr : List (Nat × Bool)) :
    shutdownSpin tr = some true ↔
      ∃ pre p post, tr = pre ++ p :: post ∧ p.1 = 0 ∧
        ∀ q ∈ pre, q.1 ≠ 0 ∧ q.2 = false := by
  induction tr with
  | nil =>
    constructor
    · intro h
      simp [shutdownSpin] at h
    · rintro ⟨pre, p, post, h, -⟩
      exact absurd h (by cases pre <;> simp)
  | cons hd tl ih =>
    obtain ⟨t, b⟩ := hd
    by_cases ht : t = 0
    · subst ht
      have hstep : shutdownSpin ((0, b) :: tl) = some true := by
        simp [shutdownSpin]
      rw [hstep]
      constructor
      · intro _
        exact ⟨[], (0, b), tl, rfl, rfl, by simp⟩
      · intro _
        rfl
    · by_cases hb : b = true
      · subst hb
        have hstep : shutdownSpin ((t, true) :: tl) = some false := by
          simp [shutdownSpin, ht]
        rw [hstep]
        constructor
        · intro h
          exact absurd h (by simp)
        · rintro ⟨pre, p, post, h, hp, hpre⟩
          cases pre with
          | nil =>
            simp only [List.nil_append, List.cons.injEq] at h
            rw [← h.1] at hp
            exact absurd hp ht
          | cons q pre2 =>
            simp only [List.cons_append, List.cons.injEq] at h
            have hq := (hpre q (List.mem_cons_self q pre2)).2
            rw [← h.1] at hq
            simp at hq
      · have hb2 : b = false := by cases b <;> simp_all
        subst hb2
        have hstep : shutdownSpin ((t, false) :: tl) = shutdownSpin tl := by
          simp [shutdownSpin, ht]
        rw [hstep, ih]
        constructor
        · rintro ⟨pre, p, post, h, hp, hpre⟩
          refine ⟨(t, false) :: pre, p, post, by simp [h], hp, ?_⟩
          intro q hq
          rcases List.mem_cons.mp hq with hq1 | hq2
          · rw [hq1]
            exact ⟨ht, rfl⟩
          · exact hpre q hq2
        · rintro ⟨pre, p, post, h, hp, hpre⟩
          cases pre with
          | nil =>
            simp only [List.nil_append, List.cons.injEq] at h
            rw [← h.1] at hp
            exact absurd hp ht
          | cons q pre2 =>
            simp only [List.cons_append, List.cons.injEq] at h
            refine ⟨pre2, p, post, h.2, hp, ?_⟩
            intro r hr
            exact hpre r (List.mem_cons_of_mem q hr)

/-- The spin-wait aborts sleep exactly when the trace reaches a button
activity reading, with the timer still nonzero, before any zero timer
reading. -/
theorem shutdownSpin_false_iff (tr : List (Nat × Bool)) :
    shutdownSpin tr = some false ↔
      ∃ pre p post, tr = pre ++ p :: post ∧ p.1 ≠ 0 ∧ p.2 = true ∧
        ∀ q ∈ pre, q.1 ≠ 0 ∧ q.2 = false := by
  induction tr with
  | nil =>
    constructor
    · intro h
      simp [shutdownSpin] at h
    · rintro ⟨pre, p, post, h, -⟩
      exact absurd h (by cases pre <;> simp)
  | cons hd tl ih =>
    obtain ⟨t, b⟩ := hd
    by_cases ht : t = 0
    · subst ht
      have hstep : shutdownSpin ((0, b) :: tl) = some true := by
        simp [shutdownSpin]
      rw [hstep]
      constructor
      · intro h
        exact absurd h (by simp)
      · rintro ⟨pre, p, post, h, hp, -, hpre⟩
        cases pre with
        | nil =>
          simp only [List.nil_append, List.cons.injEq] at h
          rw [← h.1] at hp
          exact absurd rfl hp
        | cons q pre2 =>
          simp only [List.cons_append, List.cons.injEq] at h
          have hq := (hpre q (List.mem_cons_self q pre2)).1
          rw [← h.1] at hq
          exact absurd rfl hq
    · by_cases hb : b = true
      · subst hb
        have hstep : shutdownSpin ((t, true) :: tl) = some false := by
          simp [shutdownSpin, ht]
        rw [hstep]
        constructor
        · intro _
          exact ⟨[], (t, true), tl, rfl, ht, rfl, by simp⟩
        · intro _
          rfl
      · have hb2 : b = false := by cases b <;> simp_all
        subst hb2
        have hstep : shutdownSpin ((t, false) :: tl) = shutdownSpin tl := by
          simp [shutdownSpin, ht]
        rw [hstep, ih]
        constructor
        · rintro ⟨pre, p, post, h, hp, hpb, hpre⟩
          refine ⟨(t, false) :: pre, p, post, by simp [h], hp, hpb, ?_⟩
          intro q hq
          rcases List.mem_cons.mp hq with hq1 | hq2
          · rw [hq1]
            exact ⟨ht, rfl⟩
          · exact hpre q hq2
        · rintro ⟨pre, p, post, h, hp, hpb, hpre⟩
          cases pre with
          | nil =>
            simp only [List.nil_append, List.cons.injEq] at h
            rw [← h.1] at hpb
            cases hpb
          | cons q pre2 =>
            simp only [List.cons_append, List.cons.injEq] at h
            refine ⟨pre2, p, post, h.2, hp, hpb, ?_⟩
            intro r hr
            exact hpre r (List.mem_cons_of_mem q hr)

/-- The shutdown-entry guard of the main loop holds exactly when every
pattern slot is inactive and both debounce timers are settled, or the wake
clock has passed the 5-minute ceiling. -/
theorem shutdownGuard_iff (s : Sys) :
    shutdownGuard s = true ↔
      ((∀ i : Fin 8, s.patternState i = 0) ∧ s.rightDebounceTimer = 0 ∧
        s.leftDebounceTimer = 0) ∨ MAX_AWAKE_TIME_MS < s.wakeTimer := by
  simp [shutdownGuard, APatternIsRunning, and_assoc]

/-- Claim C3: the main loop enters the shutdown sequence exactly when no
pattern slot is active and both debounce countdowns are zero, or the wake
clock exceeds the 5-minute ceiling; the spin-wait then reaches `SLEEP()`
iff the grace timer is observed expired before any button activity, and
skips sleep iff button activity is observed while the timer is still
nonzero. -/
theorem claim_C3 :
    (∀ s : Sys, shutdownGuard s = true ↔
      ((∀ i : Fin 8, s.patternState i = 0) ∧ s.rightDebounceTimer = 0 ∧
        s.leftDebounceTimer = 0) ∨ MAX_AWAKE_TIME_MS < s.wakeTimer) ∧
    (∀ s : Sys, (SetAllLEDsOff s).ledOns = 0) ∧
    SHUTDOWN_DELAY_MS = 100 ∧
    (∀ tr : List (Nat × Bool), shutdownSpin tr = some true ↔
      ∃ pre p post, tr = pre ++ p :: post ∧ p.1 = 0 ∧
        ∀ q ∈ pre, q.1 ≠ 0 ∧ q.2 = false) ∧
    (∀ tr : List (Nat × Bool), shutdownSpin tr = some false ↔
      ∃ pre p post, tr = pre ++ p :: post ∧ p.1 ≠ 0 ∧ p.2 = true ∧
        ∀ q ∈ pre, q.1 ≠ 0 ∧ q.2 = false) :=
  ⟨shutdownGuard_iff, fun _ => rfl, rfl,
    shutdownSpin_true_iff, shutdownSpin_false_iff⟩

/-- Witness for claim C3: a trace that counts 2, 1 down to 0 with no button
activity commits to sleep, and the guard holds at boot (all patterns
inactive, debounce settled). -/
theorem claim_C3_witness :
    shutdownSpin [(2, false), (1, false), (0, false)] = some true ∧
    shutdownGuard boot = true := by
  constructor
  · exact (claim_C3.2.2.2.1 [(2, false), (1, false), (0, false)]).mpr
      ⟨[(2, false), (1, false)], (0, false), [], rfl, rfl, by decide⟩
  · exact (claim_C3.1 boot).mpr (Or.inl ⟨fun i => rfl, rfl, rfl⟩)

/-- Claim C7 exhibit (code bug): the wake clock is reset to 0 at the sleep
boundary, but `LastRightButtonPressTime` is not, so the quick-press
comparison `WakeTimer < LastRightButtonPressTime + QUICK_PRESS_MS` of the
new wake session reads the timestamp recorded in the previous session
(1000) and counts the cross-sleep press pair as a quick press: the counter
increments from 0 to 1 even though the two presses are separated by a sleep
of arbitrary duration. -/
theorem claim_C7 :
    (∀ s : Sys, (wakeFromSleep s).lastRightButtonPressTime =
      s.lastRightButtonPressTime) ∧
    (∀ s : Sys, (wakeFromSleep s).wakeTimer = 0) ∧
    c7AfterWake.wakeTimer = 0 ∧
    c7AfterWake.lastRightButtonPressTime = 1000 ∧
    c7AfterWake.leftButtonQuickPressCount = 0 ∧
    c7Session2.lastRightButtonState = false ∧
    c7Session2.wakeTimer <
      c7Session2.lastRightButtonPressTime + QUICK_PRESS_MS ∧
    c7Final.rightButtonState = ButtonState.pressed ∧
    c7Final.leftButtonQuickPressCount = 1 :=
  ⟨fun _ => rfl, fun _ => rfl, by decide, by decide, by decide, by decide,
    by decide, by decide, by decide⟩

/-- A raw-pressed level observed in the committed `Pressed` state changes
nothing. -/
theorem debounce_pressed_stays (t : Nat) :
    debounceStep true ButtonState.pressed t = (ButtonState.pressed, t) := by
  simp [debounceStep]

/-- The debounce phase as a single record update. -/
theorem debouncePhase_eq (rawL rawR : Bool) (s : Sys) :
    debouncePhase rawL rawR s =
      { s with
        leftButtonState := (debounceStep rawL s.leftButtonState s.leftDebounceTimer).1
        leftDebounceTimer := (debounceStep rawL s.leftButtonState s.leftDebounceTimer).2
        rightButtonState := (debounceStep rawR s.rightButtonState s.rightDebounceTimer).1
        rightDebounceTimer := (debounceStep rawR s.rightButtonState s.rightDebounceTimer).2 } :=
  rfl

/-- The left-press block only touches `PatternState[PATTERN_LEFT_FLASH]` and
`LastLeftButtonState`: every field the right-press block reads is
unchanged. -/
theorem leftPressBlock_frame (u : Sys) :
    (leftPressBlock u).rightButtonState = u.rightButtonState ∧
    (leftPressBlock u).leftButtonState = u.leftButtonState ∧
    (leftPressBlock u).lastRightButtonState = u.lastRightButtonState ∧
    (leftPressBlock u).leftButtonQuickPressCount = u.leftButtonQuickPressCount ∧
    (leftPressBlock u).wakeTimer = u.wakeTimer ∧
    (leftPressBlock u).lastRightButtonPressTime = u.lastRightButtonPressTime ∧
    (leftPressBlock u).patternState PATTERN_RIGHT_FLASH =
      u.patternState PATTERN_RIGHT_FLASH ∧
    (leftPressBlock u).patternState PATTERN_RIGHT_GAME =
      u.patternState PATTERN_RIGHT_GAME := by
  have h01 : PATTERN_RIGHT_FLASH ≠ PATTERN_LEFT_FLASH := by decide
  have h21 : PATTERN_RIGHT_GAME ≠ PATTERN_LEFT_FLASH := by decide
  unfold leftPressBlock
  by_cases h1 : LeftButtonPressed u
  · by_cases h2 : u.lastLeftButtonState = false <;>
      simp [h1, h2, setPS, h01, h21]
  · simp [h1]

/-- On a new confirmed right press the right-press block is the gesture body
followed by latching `LastRightButtonState`. -/
theorem rightPressBlock_new (u : Sys) (h1 : RightButtonPressed u = true)
    (h2 : u.lastRightButtonState = false) :
    rightPressBlock u = { rightGesture u with lastRightButtonState := true } := by
  simp [rightPressBlock, h1, h2]

/-- Behaviour of the quick-press gesture body on a new confirmed right
press, assuming the uint32 timestamp sum does not wrap. -/
theorem rightGesture_spec (u : Sys)
    (hgap : u.lastRightButtonPressTime + QUICK_PRESS_MS < 2 ^ 32) :
    (LeftButtonPressed u = false →
      (rightGesture u).leftButtonQuickPressCount =
        u.leftButtonQuickPressCount ∧
      (rightGesture u).patternState PATTERN_RIGHT_GAME =
        u.patternState PATTERN_RIGHT_GAME ∧
      (rightGesture u).lastRightButtonPressTime = u.wakeTimer) ∧
    (LeftButtonPressed u = true →
      (u.lastRightButtonPressTime + QUICK_PRESS_MS ≤ u.wakeTimer →
        (rightGesture u).leftButtonQuickPressCount = 0) ∧
      (u.wakeTimer < u.lastRightButtonPressTime + QUICK_PRESS_MS →
        (rightGesture u).leftButtonQuickPressCount =
          (u.leftButtonQuickPressCount + 1) % 256 ∧
        ((u.leftButtonQuickPressCount + 1) % 256 = 4 →
          (rightGesture u).patternState PATTERN_RIGHT_FLASH = 0 ∧
          (rightGesture u).patternState PATTERN_LEFT_FLASH = 0 ∧
          (rightGesture u).patternState PATTERN_RIGHT_GAME = 1) ∧
        ((u.leftButtonQuickPressCount + 1) % 256 ≠ 4 →
          (rightGesture u).patternState PATTERN_RIGHT_GAME =
            u.patternState PATTERN_RIGHT_GAME))) := by
  have hmod : (u.lastRightButtonPressTime + QUICK_PRESS_MS) % 2 ^ 32 =
      u.lastRightButtonPressTime + QUICK_PRESS_MS := Nat.mod_eq_of_lt hgap
  have h02 : PATTERN_RIGHT_GAME ≠ PATTERN_RIGHT_FLASH := by decide
  have h20 : PATTERN_RIGHT_FLASH ≠ PATTERN_RIGHT_GAME := by decide
  have h12 : PATTERN_LEFT_FLASH ≠ PATTERN_RIGHT_GAME := by decide
  have h10 : PATTERN_LEFT_FLASH ≠ PATTERN_RIGHT_FLASH := by decide
  constructor
  · intro hl
    simp [rightGesture, setPS, LeftButtonPressed, hl, h02,
      show u.leftButtonState = ButtonState.pressed ↔ False by
        simpa [LeftButtonPressed] using hl]
  · intro hl
    have hl2 : u.leftButtonState = ButtonState.pressed := by
      simpa [LeftButtonPressed] using hl
    have hm2 : (u.lastRightButtonPressTime + QUICK_PRESS_MS) % 4294967296 =
        u.lastRightButtonPressTime + QUICK_PRESS_MS := by
      rw [show (4294967296 : Nat) = 2 ^ 32 by norm_num]
      exact hmod
    constructor
    · intro hge
      have hlt : ¬ u.wakeTimer <
          (u.lastRightButtonPressTime + QUICK_PRESS_MS) % 4294967296 := by
        rw [hm2]
        omega
      simp [rightGesture, setPS, LeftButtonPressed, hl2, hlt]
    · intro hlt
      have hlt2 : u.wakeTimer <
          (u.lastRightButtonPressTime + QUICK_PRESS_MS) % 4294967296 := by
        rw [hm2]
        exact hlt
      by_cases h4 : (u.leftButtonQuickPressCount + 1) % 256 = 4
      · refine ⟨?_, fun _ => ⟨?_, ?_, ?_⟩, fun hne => absurd h4 hne⟩ <;>
          simp [rightGesture, setPS, LeftButtonPressed, hl2, hlt2, h4,
            h02, h20, h12, h10]
      · refine ⟨?_, fun hc => absurd hc h4, fun _ => ?_⟩ <;>
          simp [rightGesture, setPS, LeftButtonPressed, hl2, hlt2, h4,
            h02, h20, h12, h10]

/-- Counterexample to claim C8 as stated: a confirmed new right press with
a 300ms (> 250ms) gap but with the left button NOT pressed leaves the
quick-press counter at 2 — the reset to zero only happens inside the
left-button-held branch (main.c lines 834-862). -/
theorem claim_C8_counterexample :
    c8NoLeft.lastRightButtonState = false ∧
    (CheckForButtonPushes false true c8NoLeft).1.rightButtonState =
      ButtonState.pressed ∧
    c8NoLeft.lastRightButtonPressTime + QUICK_PRESS_MS <
      c8NoLeft.wakeTimer ∧
    (CheckForButtonPushes false true c8NoLeft).1.leftButtonQuickPressCount
      = 2 := by
  decide

/-- Claim C8, amended: on a confirmed new right press, the quick-press
counter is reset to zero only when the left button is simultaneously
confirmed pressed AND the gap since the previous right-press timestamp is
at least 250ms; with the left button pressed and the gap under 250ms the
counter increments (uint8), and the counter reaching 4 sets both flash
pattern states to 0 and the game pattern state to 1; with the left button
not confirmed pressed the counter is unchanged whatever the gap. -/
theorem claim_C8 (s : Sys) (rawL : Bool)
    (hr : s.rightButtonState = ButtonState.pressed)
    (hnew : s.lastRightButtonState = false)
    (hgap : s.lastRightButtonPressTime + QUICK_PRESS_MS < 2 ^ 32) :
    ((debounceStep rawL s.leftButtonState s.leftDebounceTimer).1 ≠
        ButtonState.pressed →
      (CheckForButtonPushes rawL true s).1.leftButtonQuickPressCount =
        s.leftButtonQuickPressCount) ∧
    ((debounceStep rawL s.leftButtonState s.leftDebounceTimer).1 =
        ButtonState.pressed →
      (s.lastRightButtonPressTime + QUICK_PRESS_MS ≤ s.wakeTimer →
        (CheckForButtonPushes rawL true s).1.leftButtonQuickPressCount = 0) ∧
      (s.wakeTimer < s.lastRightButtonPressTime + QUICK_PRESS_MS →
        (CheckForButtonPushes rawL true s).1.leftButtonQuickPressCount =
          (s.leftButtonQuickPressCount + 1) % 256 ∧
        ((s.leftButtonQuickPressCount + 1) % 256 = 4 →
          (CheckForButtonPushes rawL true s).1.patternState
            PATTERN_RIGHT_FLASH = 0 ∧
          (CheckForButtonPushes rawL true s).1.patternState
            PATTERN_LEFT_FLASH = 0 ∧
          (CheckForButtonPushes rawL true s).1.patternState
            PATTERN_RIGHT_GAME = 1) ∧
        ((s.leftButtonQuickPressCount + 1) % 256 ≠ 4 →
          (CheckForButtonPushes rawL true s).1.patternState
            PATTERN_RIGHT_GAME = s.patternState PATTERN_RIGHT_GAME))) := by
  have hd : debouncePhase rawL true s =
      { s with
        leftButtonState :=
          (debounceStep rawL s.leftButtonState s.leftDebounceTimer).1
        leftDebounceTimer :=
          (debounceStep rawL s.leftButtonState s.leftDebounceTimer).2
        rightButtonState := ButtonState.pressed
        rightDebounceTimer := s.rightDebounceTimer } := by
    rw [debouncePhase_eq, hr, debounce_pressed_stays]
  obtain ⟨f1, f2, f3, f4, f5, f6, f7, f8⟩ :=
    leftPressBlock_frame (debouncePhase rawL true s)
  have hrp : RightButtonPressed
      (leftPressBlock (debouncePhase rawL true s)) = true := by
    unfold RightButtonPressed
    rw [f1, hd]
    simp
  have hln : (leftPressBlock (debouncePhase rawL true s)).lastRightButtonState
      = false := by
    rw [f3, hd]
    exact hnew
  have hcheck : (CheckForButtonPushes rawL true s).1 =
      { rightGesture (leftPressBlock (debouncePhase rawL true s)) with
        lastRightButtonState := true } := by
    show rightPressBlock (leftPressBlock (debouncePhase rawL true s)) = _
    rw [rightPressBlock_new _ hrp hln]
  have hlwt : (leftPressBlock (debouncePhase rawL true s)).wakeTimer =
      s.wakeTimer := by
    rw [f5, hd]
  have hlrpt : (leftPressBlock
      (debouncePhase rawL true s)).lastRightButtonPressTime =
      s.lastRightButtonPressTime := by
    rw [f6, hd]
  have hlcnt : (leftPressBlock
      (debouncePhase rawL true s)).leftButtonQuickPressCount =
      s.leftButtonQuickPressCount := by
    rw [f4, hd]
  have hlgame : (leftPressBlock (debouncePhase rawL true s)).patternState
      PATTERN_RIGHT_GAME = s.patternState PATTERN_RIGHT_GAME := by
    rw [f8, hd]
  have hlleft : (leftPressBlock (debouncePhase rawL true s)).leftButtonState
      = (debounceStep rawL s.leftButtonState s.leftDebounceTimer).1 := by
    rw [f2, hd]
  have hgl : (leftPressBlock
      (debouncePhase rawL true s)).lastRightButtonPressTime +
      QUICK_PRESS_MS < 2 ^ 32 := by
    rw [hlrpt]
    exact hgap
  obtain ⟨g1, g2⟩ := rightGesture_spec (leftPressBlock
    (debouncePhase rawL true s)) hgl
  constructor
  · intro hnp
    have hlf : LeftButtonPressed
        (leftPressBlock (debouncePhase rawL true s)) = false := by
      unfold LeftButtonPressed
      rw [hlleft]
      simp [hnp]
    rw [hcheck]
    show (rightGesture (leftPressBlock
      (debouncePhase rawL true s))).leftButtonQuickPressCount = _
    rw [(g1 hlf).1, hlcnt]
  · intro hp
    have hlf : LeftButtonPressed
        (leftPressBlock (debouncePhase rawL true s)) = true := by
      unfold LeftButtonPressed
      rw [hlleft, hp]
      decide
    have hg := g2 hlf
    constructor
    · intro hge
      rw [hcheck]
      show (rightGesture (leftPressBlock
        (debouncePhase rawL true s))).leftButtonQuickPressCount = 0
      exact hg.1 (by rw [hlrpt, hlwt]; exact hge)
    · intro hlt
      have hq := hg.2 (by rw [hlrpt, hlwt]; exact hlt)
      refine ⟨?_, ?_, ?_⟩
      · rw [hcheck]
        show (rightGesture (leftPressBlock
          (debouncePhase rawL true s))).leftButtonQuickPressCount = _
        rw [hq.1, hlcnt]
      · intro h4
        have h42 := hq.2.1 (by rw [hlcnt]; exact h4)
        rw [hcheck]
        exact h42
      · intro h4
        have h42 := hq.2.2 (by rw [hlcnt]; exact h4)
        rw [hcheck]
        show (rightGesture (leftPressBlock
          (debouncePhase rawL true s))).patternState PATTERN_RIGHT_GAME = _
        rw [h42, hlgame]

/-- Witness for the amended claim C8 at `c8Quick`: a new right press 100ms
after the previous one with the left button held increments the counter
from 1 to 2. -/
theorem claim_C8_witness :
    (CheckForButtonPushes true true c8Quick).1.leftButtonQuickPressCount
      = 2 := by
  have h := (((claim_C8 c8Quick true (by decide) (by decide)
    (by decide)).2 (by decide)).2 (by decide)).1
  rw [h]
  decide

/-- The cursor/timer stage never touches `PatternState`. -/
theorem tickEpoch_patternState (s : Sys) :
    (tickEpoch s).patternState = s.patternState := by
  unfold tickEpoch
  dsimp only
  split <;> rfl

/-- Projection of an `if` between two states commutes with the `if`. -/
theorem patternState_ite (c : Prop) [Decidable c] (a b : Sys) (i : Fin 8) :
    (if c then a else b).patternState i =
      if c then a.patternState i else b.patternState i := by
  split <;> rfl

/-- The right-flash case switch writes `PatternState` only at index
`PATTERN_RIGHT_FLASH`. -/
theorem rightFlashCase_frame (st : Nat) (u : Sys) (i : Fin 8)
    (hi : i ≠ PATTERN_RIGHT_FLASH) :
    (rightFlashCase st u).patternState i = u.patternState i := by
  unfold rightFlashCase
  split <;> simp [SetLEDOn, SetLEDOff, setPS, hi]

/-- `RunRightFlash` writes `PatternState` only at index
`PATTERN_RIGHT_FLASH`. -/
theorem RunRightFlash_frame (s : Sys) (i : Fin 8)
    (hi : i ≠ PATTERN_RIGHT_FLASH) :
    (RunRightFlash s).patternState i = s.patternState i := by
  have hrc : ∀ st u, (rightFlashCase st u).patternState i = u.patternState i :=
    fun st u => rightFlashCase_frame st u i hi
  unfold RunRightFlash
  simp [patternState_ite, setPD, setPS, hi, hrc]

/-- The left-flash case switch writes `PatternState` only at index
`PATTERN_LEFT_FLASH`. -/
theorem leftFlashCase_frame (st : Nat) (u : Sys) (i : Fin 8)
    (hi : i ≠ PATTERN_LEFT_FLASH) :
    (leftFlashCase st u).patternState i = u.patternState i := by
  unfold leftFlashCase
  split <;> simp [SetLEDOn, SetLEDOff, setPS, hi]

/-- `RunLeftFlash` writes `PatternState` only at index
`PATTERN_LEFT_FLASH`. -/
theorem RunLeftFlash_frame (s : Sys) (i : Fin 8)
    (hi : i ≠ PATTERN_LEFT_FLASH) :
    (RunLeftFlash s).patternState i = s.patternState i := by
  have hlc : ∀ st u, (leftFlashCase st u).patternState i = u.patternState i :=
    fun st u => leftFlashCase_frame st u i hi
  unfold RunLeftFlash
  simp [patternState_ite, setPD, setPS, hi, hlc]

/-- The game bar rendering only touches the LED bitmask. -/
theorem gameRender_patternState (n : Nat) (u : Sys) :
    (gameRender n u).patternState = u.patternState := by
  unfold gameRender
  split <;> simp [SetLEDOn, SetLEDOff]

/-- `RunGame` never writes `PatternState`. -/
theorem RunGame_patternState (s : Sys) (i : Fin 8) :
    (RunGame s).patternState i = s.patternState i := by
  unfold RunGame
  simp [patternState_ite, gameRender_patternState, SetLEDOn, SetLEDOff]

/-- The quick-press gesture body writes index `PATTERN_RIGHT_GAME` only to
the value 1, so an active game slot stays active. -/
theorem rightGesture_game_active (u : Sys)
    (hg : u.patternState PATTERN_RIGHT_GAME = 1) :
    (rightGesture u).patternState PATTERN_RIGHT_GAME = 1 := by
  have h20 : PATTERN_RIGHT_GAME ≠ PATTERN_RIGHT_FLASH := by decide
  unfold rightGesture
  simp [patternState_ite, setPS, h20, hg]

/-- `CheckForButtonPushes` keeps an active game slot active. -/
theorem CheckForButtonPushes_game_active (rawL rawR : Bool) (s : Sys)
    (hg : s.patternState PATTERN_RIGHT_GAME = 1) :
    (CheckForButtonPushes rawL rawR s).1.patternState PATTERN_RIGHT_GAME
      = 1 := by
  have h21 : PATTERN_RIGHT_GAME ≠ PATTERN_LEFT_FLASH := by decide
  have hdp : (debouncePhase rawL rawR s).patternState PATTERN_RIGHT_GAME
      = 1 := by
    rw [debouncePhase_eq]
    exact hg
  have hlp : (leftPressBlock (debouncePhase rawL rawR s)).patternState
      PATTERN_RIGHT_GAME = 1 := by
    rw [(leftPressBlock_frame (debouncePhase rawL rawR s)).2.2.2.2.2.2.2]
    exact hdp
  show (rightPressBlock (leftPressBlock (debouncePhase rawL rawR s))
    ).patternState PATTERN_RIGHT_GAME = 1
  unfold rightPressBlock
  dsimp only
  split_ifs with h1 h2
  · show (rightGesture (leftPressBlock (debouncePhase rawL rawR s))
      ).patternState PATTERN_RIGHT_GAME = 1
    exact rightGesture_game_active _ hlp
  · exact hlp
  · exact hlp

/-- Claim C10: once the game slot is active (`PatternState[2] = 1`), every
operation of the system leaves it active — the tick, all three pattern
engines, the button/gesture pass, the LED blanking, the grace-timer arming
and the sleep/wake boundary — and consequently the shutdown guard can hold
only through the 5-minute wake-clock ceiling. -/
theorem claim_C10 (s : Sys) (rawL rawR : Bool)
    (hg : s.patternState PATTERN_RIGHT_GAME = 1) :
    (TMR0_Callback s).patternState PATTERN_RIGHT_GAME = 1 ∧
    (RunRightFlash s).patternState PATTERN_RIGHT_GAME = 1 ∧
    (RunLeftFlash s).patternState PATTERN_RIGHT_GAME = 1 ∧
    (RunGame s).patternState PATTERN_RIGHT_GAME = 1 ∧
    (CheckForButtonPushes rawL rawR s).1.patternState PATTERN_RIGHT_GAME
      = 1 ∧
    (SetAllLEDsOff s).patternState PATTERN_RIGHT_GAME = 1 ∧
    ({ s with shutdownDelayTimer := SHUTDOWN_DELAY_MS }).patternState
      PATTERN_RIGHT_GAME = 1 ∧
    (wakeFromSleep s).patternState PATTERN_RIGHT_GAME = 1 ∧
    (shutdownGuard s = true ↔ MAX_AWAKE_TIME_MS < s.wakeTimer) := by
  refine ⟨?_, ?_, ?_, ?_, ?_, hg, hg, hg, ?_⟩
  · show (tickEpoch (tickRegs s)).patternState PATTERN_RIGHT_GAME = 1
    rw [tickEpoch_patternState, (tickRegs_fields s).2.2.2.1]
    exact hg
  · rw [RunRightFlash_frame s PATTERN_RIGHT_GAME (by decide)]
    exact hg
  · rw [RunLeftFlash_frame s PATTERN_RIGHT_GAME (by decide)]
    exact hg
  · rw [RunGame_patternState s PATTERN_RIGHT_GAME]
    exact hg
  · exact CheckForButtonPushes_game_active rawL rawR s hg
  · rw [shutdownGuard_iff]
    constructor
    · rintro (⟨hall, -⟩ | hceil)
      · have := hall PATTERN_RIGHT_GAME
        rw [hg] at this
        cases this
      · exact hceil
    · exact Or.inr

/-- Witness for claim C10 at a state with only the game slot active and the
wake clock at 400000ms (past the ceiling): the guard holds through the
ceiling disjunct, and a full button pass keeps the slot active. -/
theorem claim_C10_witness :
    (CheckForButtonPushes true true
      { boot with
        patternState := fun i => if i = PATTERN_RIGHT_GAME then 1 else 0
        wakeTimer := 400000 }).1.patternState PATTERN_RIGHT_GAME = 1 ∧
    (shutdownGuard
      { boot with
        patternState := fun i => if i = PATTERN_RIGHT_GAME then 1 else 0
        wakeTimer := 400000 } = true ↔ MAX_AWAKE_TIME_MS < 400000) :=
  ⟨(claim_C10 _ true true (by decide)).2.2.2.2.1,
   (claim_C10 { boot with
        patternState := fun i => if i = PATTERN_RIGHT_GAME then 1 else 0
        wakeTimer := 400000 } true true (by decide)).2.2.2.2.2.2.2.2⟩

end LTS2018
